import Mathlib

/-!
Shallow embedding of the core of the `beq` repository, together with proofs
checking the claims of its natural-language specification against the code.

Covered source files:
* `services/calendar-integration/app/core/conflicts/detector.py` (conflict engine),
* `services/scheduler/app/solver/simple_scheduler.py` (heuristic planner),
* `services/scheduler/app/llm/openrouter_client.py` and
  `services/scheduler/app/main.py` (LLM planner pipeline),
* `services/orchestrator/app/agent/orchestrator_agent.py` and
  `services/orchestrator/app/tools/brick_management_tools.py` (orchestrator).

Modelling conventions, used throughout:
* Python `datetime` values are modelled by integers (seconds, or minutes for the
  scheduler, from a fixed reference instant); a field that holds a datetime
  *string* in Python is modelled by the parse result `Option Int`, `none`
  standing for a missing key or a string on which `datetime.fromisoformat`
  raises `ValueError`.
* Python dictionaries with a fixed key set are modelled by structures whose
  optional keys are `Option` fields; open-ended dictionaries by association
  lists.
* Exceptions are modelled by `Option`/`Except` return types.
* Python `float` arithmetic is modelled by exact unreduced fractions
  (`PyFloat`) compared by cross multiplication; every computation involved is
  exact in `float` as well.
* String manipulation is re-implemented over `List Char` so that every
  definition evaluates inside the kernel; the semantics matches the Python
  string operations used by the source on the inputs that occur.
-/

/-- Character-level lower casing of the ASCII range, the fragment of Python
`str.lower` exercised by the source (priorities and categories are ASCII). -/
def lower_char (c : Char) : Char :=
  if 'A' ≤ c ∧ c ≤ 'Z' then Char.ofNat (c.toNat + 32) else c

/-- Model of Python `str.lower` on ASCII data. -/
def py_lower (s : String) : String :=
  ⟨s.data.map lower_char⟩

/-- Check whether `pat` occurs as a contiguous sublist of `l` (helper for the
Python `in` operator on strings). -/
def sublist_at : List Char → List Char → Bool
  | _, [] => true
  | [], _ :: _ => false
  | a :: as', p :: ps => (a == p && (as'.take ps.length == ps)) || sublist_at as' (p :: ps)

/-- Model of the Python `pat in s` substring test. -/
def py_contains (s pat : String) : Bool :=
  sublist_at s.data pat.data

/-- Split `l` at every occurrence of the nonempty separator `sep`
(helper for Python `str.split(sep)`). -/
def split_chars (sep : List Char) : Nat → List Char → List (List Char)
  | _, [] => [[]]
  | 0, l => [l]
  | fuel + 1, a :: as' =>
    if sep ≠ [] && ((a :: as').take sep.length == sep) then
      [] :: split_chars sep fuel ((a :: as').drop sep.length)
    else
      match split_chars sep fuel as' with
      | [] => [[a]]
      | g :: gs => (a :: g) :: gs

/-- Model of Python `s.split(sep)` for a nonempty separator.  The fuel argument
of `split_chars` is the input length, which the splitting never exhausts since
every step consumes at least one character. -/
def py_split (s sep : String) : List String :=
  (split_chars sep.data s.data.length s.data).map List.asString

/-- Whitespace test used by `py_strip` (the characters Python's default
`str.strip` removes that occur in the source's strings). -/
def is_py_space (c : Char) : Bool :=
  c == ' ' || c == '\t' || c == '\n' || c == '\r'

/-- Model of Python `s.strip()`. -/
def py_strip (s : String) : String :=
  ⟨(s.data.dropWhile is_py_space).reverse.dropWhile is_py_space |>.reverse⟩

/-- Concatenate a list of strings with a separator, the model of Python
`sep.join(parts)`. -/
def py_join (sep : String) : List String → String
  | [] => ""
  | [s] => s
  | s :: rest => s ++ sep ++ py_join sep rest

/-- Evaluate a list of options, failing if any entry is `none`; models a Python
list comprehension whose body can raise. -/
def all_some {α : Type} : List (Option α) → Option (List α)
  | [] => some []
  | none :: _ => none
  | some a :: rest => (all_some rest).map (a :: ·)

/-- Maximum of a list of integers with base case the head; models Python
`max(l)` on a nonempty list. -/
def max_list : List Int → Int
  | [] => 0
  | a :: rest => rest.foldl max a

/-- Minimum of a list of integers with base case the head; models Python
`min(l)` on a nonempty list. -/
def min_list : List Int → Int
  | [] => 0
  | a :: rest => rest.foldl min a

/-- Lexicographic comparison of character lists by code point, the order Python
uses to compare strings. -/
def chars_le : List Char → List Char → Bool
  | [], _ => true
  | _ :: _, [] => false
  | a :: as', b :: bs => if a == b then chars_le as' bs else decide (a < b)

/-- Code-point lexicographic order on strings (Python string `<=`). -/
def str_le (a b : String) : Prop :=
  chars_le a.data b.data = true

instance : DecidableRel str_le := fun a b => by
  unfold str_le; infer_instance

/-- Projection of an `Except` to its success value, used to state equations
about fallible operations. -/
def except_ok {ε α : Type} : Except ε α → Option α
  | .ok a => some a
  | .error _ => none

/-- Projection of an `Except` to its error value. -/
def except_error {ε α : Type} : Except ε α → Option ε
  | .ok _ => none
  | .error e => some e

namespace Conflicts

/-- Calendar event, the shape of the event dictionaries consumed by
`ConflictDetector` (`detector.py`).  `start_time`/`end_time` model the parse
result of the ISO timestamp strings (seconds from a fixed instant; `none` for a
missing key or an unparseable string, on which `_parse_datetime` raises).
`title` and `priority` are `Option` because the source reads them with
different defaults; `id` and `description` are read only with default `""`,
which is also Python-falsy, so a plain `String` is faithful.  `recurrence`
models the truthiness of the `recurrence` key. -/
structure Ev where
  id : String := ""
  title : Option String := none
  start_time : Option Int := none
  end_time : Option Int := none
  priority : Option String := none
  recurrence : Bool := false
  description : String := ""
deriving DecidableEq, Inhabited

/-- The `ConflictType` enumeration of `detector.py`. -/
inductive ConflictType where
  | time_overlap
  | double_booking
  | priority_conflict
  | resource_conflict
  | recurring_conflict
deriving DecidableEq

/-- The `ConflictSeverity` enumeration of `detector.py`. -/
inductive ConflictSeverity where
  | low
  | medium
  | high
  | critical
deriving DecidableEq

/-- The `ResolutionStrategy` enumeration of `detector.py`. -/
inductive ResolutionStrategy where
  | keep_existing
  | replace_with_new
  | merge_events
  | move_to_alternative_time
  | split_event
  | cancel_event
  | user_decision
deriving DecidableEq

/-- The `metadata` dictionary attached to a `Conflict`; each detector kind fills
a different subset of keys. -/
structure Metadata where
  overlap_duration : Option Int := none
  event_count : Option Nat := none
  priority_difference : Option String := none
  recurring_events : Option Bool := none
deriving DecidableEq

/-- The `Conflict` dataclass of `detector.py`. -/
structure Conflict where
  conflict_id : String
  conflict_type : ConflictType
  severity : ConflictSeverity
  description : String
  events : List Ev
  suggested_resolution : ResolutionStrategy
  resolution_options : List ResolutionStrategy
  metadata : Metadata
deriving DecidableEq

/-- The `ConflictResolution` dataclass of `detector.py`. -/
structure ConflictResolution where
  conflict_id : String
  strategy : ResolutionStrategy
  resolved_events : List Ev
  discarded_events : List Ev
  notes : Option String := none
deriving DecidableEq

/-- The `user_decision` dictionary accepted by `resolve_conflict`
(keys `keep_events`, `discard_events`, `notes`, each read with a default). -/
structure UserDecision where
  keep_events : List Ev := []
  discard_events : List Ev := []
  notes : Option String := none
deriving DecidableEq

/-- Mutable state of a `ConflictDetector` instance: the `self.conflicts` and
`self.resolutions` dictionaries, as insertion-ordered association lists. -/
structure DetectorState where
  conflicts : List (String × Conflict) := []
  resolutions : List (String × ConflictResolution) := []
deriving DecidableEq

/-- Python dictionary assignment `d[k] = v`: replace the value at an existing
key in place, otherwise append the binding. -/
def dict_set {α : Type} : List (String × α) → String → α → List (String × α)
  | [], k, v => [(k, v)]
  | (k', v') :: rest, k, v =>
    if k' = k then (k, v) :: rest else (k', v') :: dict_set rest k v

/-- `ConflictDetector._events_overlap`: strict interval overlap, `False` when a
timestamp is missing or unparseable (the `except` branch). -/
def events_overlap (e1 e2 : Ev) : Bool :=
  match e1.start_time, e1.end_time, e2.start_time, e2.end_time with
  | some s1, some en1, some s2, some en2 => decide (s1 < en2) && decide (en1 > s2)
  | _, _, _, _ => false

/-- `ConflictDetector._should_check_events`.  With both window bounds given,
both events must start inside the window; otherwise the start instants must lie
within one calendar day, where `timedelta.days` floors (`Int.fdiv` by 86400
seconds).  Parse failure yields `False`. -/
def should_check_events (e1 e2 : Ev) (window_start window_end : Option Int) : Bool :=
  match e1.start_time, e2.start_time with
  | some s1, some s2 =>
    match window_start, window_end with
    | some w1, some w2 =>
      decide (w1 ≤ s1) && decide (s1 ≤ w2) && decide (w1 ≤ s2) && decide (s2 ≤ w2)
    | _, _ => decide ((Int.fdiv (s1 - s2) 86400).natAbs ≤ 1)
  | _, _ => false

/-- `ConflictDetector._get_event_priority`: the `priority` key with default
`"medium"`, lower-cased. -/
def get_event_priority (e : Ev) : String :=
  py_lower (e.priority.getD "medium")

/-- `ConflictDetector._calculate_overlap_severity`. -/
def calculate_overlap_severity (events : List Ev) : ConflictSeverity :=
  let priorities := events.map get_event_priority
  if priorities.contains "urgent" then .critical
  else if priorities.contains "high" then .high
  else if events.length > 2 then .medium
  else .low

/-- `ConflictDetector._calculate_overlap_duration` (minutes of common overlap,
0 on short input, parse failure, or an empty intersection). -/
def calculate_overlap_duration (events : List Ev) : Int :=
  if events.length < 2 then 0
  else
    match all_some (events.map (·.start_time)), all_some (events.map (·.end_time)) with
    | some starts, some ends =>
      let overlap_start := max_list starts
      let overlap_end := min_list ends
      if overlap_start < overlap_end then (overlap_end - overlap_start) / 60 else 0
    | _, _ => 0

/-- `ConflictDetector._suggest_overlap_resolution`. -/
def suggest_overlap_resolution (events : List Ev) : ResolutionStrategy :=
  let priorities := events.map get_event_priority
  if priorities.contains "urgent" || priorities.contains "high" then .replace_with_new
  else if events.length > 2 then .user_decision
  else .keep_existing

/-- `ConflictDetector._generate_overlap_description` (the `'` of the f-string is
written `\x27`). -/
def generate_overlap_description (events : List Ev) : String :=
  let event_titles := events.map (fun e => e.title.getD "Unknown Event")
  let overlap_minutes := calculate_overlap_duration events
  if events.length = 2 then
    "\x27" ++ event_titles.headD "" ++ "\x27 overlaps with \x27" ++
      (event_titles.drop 1).headD "" ++ "\x27 for " ++ toString overlap_minutes ++ " minutes"
  else
    toString events.length ++ " events overlap including \x27" ++
      event_titles.headD "" ++ "\x27 for " ++ toString overlap_minutes ++ " minutes"

/-- `ConflictDetector._create_overlap_conflict`: `none` for fewer than two
events, otherwise the `time_overlap` conflict whose id joins the sorted event
ids. -/
def create_overlap_conflict (events : List Ev) : Option Conflict :=
  if events.length < 2 then none
  else
    let event_ids := List.insertionSort str_le (events.map (·.id))
    some
      { conflict_id := "overlap_" ++ py_join "_" event_ids
        conflict_type := .time_overlap
        severity := calculate_overlap_severity events
        description := generate_overlap_description events
        events := events
        suggested_resolution := suggest_overlap_resolution events
        resolution_options :=
          [.keep_existing, .replace_with_new, .move_to_alternative_time, .user_decision]
        metadata :=
          { overlap_duration := some (calculate_overlap_duration events)
            event_count := some events.length } }

/-- `ConflictDetector._create_priority_conflict` (always `some`; the event ids
are joined in the order given, not sorted). -/
def create_priority_conflict (events : List Ev) : Option Conflict :=
  some
    { conflict_id := "priority_" ++ py_join "_" (events.map (·.id))
      conflict_type := .priority_conflict
      severity := .medium
      description := "High priority event conflicts with lower priority event"
      events := events
      suggested_resolution := .replace_with_new
      resolution_options := [.replace_with_new, .keep_existing, .user_decision]
      metadata := { priority_difference := some "high_vs_lower" } }

/-- `ConflictDetector._create_recurring_conflict` (always `some`). -/
def create_recurring_conflict (events : List Ev) : Option Conflict :=
  some
    { conflict_id := "recurring_" ++ py_join "_" (events.map (·.id))
      conflict_type := .recurring_conflict
      severity := .high
      description := "Recurring events conflict with each other"
      events := events
      suggested_resolution := .user_decision
      resolution_options := [.move_to_alternative_time, .cancel_event, .user_decision]
      metadata := { recurring_events := some true } }

/-- `ConflictDetector._detect_priority_conflicts`: for a new event of priority
`"high"`, one priority conflict per already-processed overlapping event of
priority `"low"` or `"medium"`. -/
def detect_priority_conflicts (e : Ev) (existing_events : List Ev) : List Conflict :=
  existing_events.filterMap fun p =>
    if get_event_priority e == "high" &&
        (get_event_priority p == "low" || get_event_priority p == "medium") &&
        events_overlap e p then
      create_priority_conflict [e, p]
    else none

/-- `ConflictDetector._detect_recurring_conflicts`. -/
def detect_recurring_conflicts (e : Ev) (existing_events : List Ev) : List Conflict :=
  if e.recurrence then
    existing_events.filterMap fun p =>
      if p.recurrence && events_overlap e p then create_recurring_conflict [e, p]
      else none
  else []

/-- Sort key of `detect_conflicts`: the parsed `start_time`.  The `getD` default
is never consulted by `detect_conflicts`, which fails first when a start time
does not parse (the `sorted` call raises). -/
def start_key (e : Ev) : Int :=
  e.start_time.getD 0

/-- Ordering on events used by the `sorted(events, key=...)` call. -/
def ev_le (a b : Ev) : Prop :=
  start_key a ≤ start_key b

instance : DecidableRel ev_le := fun a b => by
  unfold ev_le; infer_instance

instance : IsTotal Ev ev_le :=
  ⟨fun a b => Int.le_total (start_key a) (start_key b)⟩

instance : IsTrans Ev ev_le :=
  ⟨fun _ _ _ h1 h2 => le_trans h1 h2⟩

/-- Main loop of `ConflictDetector.detect_conflicts` over the sorted event
list: for each event, overlap conflicts against the already-processed prefix,
overlap conflicts against proximate later events, then priority and recurring
conflicts against the prefix, in source order. -/
def detect_loop (window_start window_end : Option Int) :
    List Ev → List Ev → List Conflict
  | _, [] => []
  | processed, e :: rest =>
    let event_conflicts :=
      (processed.filterMap fun p =>
        if events_overlap e p then create_overlap_conflict [e, p] else none) ++
      (rest.filterMap fun other =>
        if should_check_events e other window_start window_end && events_overlap e other then
          create_overlap_conflict [e, other]
        else none) ++
      detect_priority_conflicts e processed ++
      detect_recurring_conflicts e processed
    event_conflicts ++ detect_loop window_start window_end (processed ++ [e]) rest

/-- `ConflictDetector.detect_conflicts`.  Returns `none` when some event's
start time does not parse (the initial `sorted(...)` call raises `ValueError`);
otherwise the conflicts in emission order together with the updated state,
`self.conflicts[c.conflict_id] = c` having been executed in the same order. -/
def detect_conflicts (st : DetectorState) (events : List Ev)
    (window_start window_end : Option Int) : Option (List Conflict × DetectorState) :=
  if events.all fun e => e.start_time.isSome then
    let sorted_events := List.insertionSort ev_le events
    let conflicts := detect_loop window_start window_end [] sorted_events
    some (conflicts,
      { st with conflicts := conflicts.foldl (fun m c => dict_set m c.conflict_id c) st.conflicts })
  else none

/-- `ConflictDetector._merge_events`: `{}` for an empty input, otherwise the
first event with combined title, enclosing span and combined non-empty
descriptions; `none` when a timestamp fails to parse (`ValueError`). -/
def merge_events : List Ev → Option Ev
  | [] => some {}
  | e :: rest =>
    let events := e :: rest
    let titles := events.map fun ev => ev.title.getD ""
    match all_some (events.map (·.start_time)), all_some (events.map (·.end_time)) with
    | some starts, some ends =>
      let descriptions := (events.map (·.description)).filter fun d => d ≠ ""
      some
        { e with
          title := some (py_join " | " titles)
          start_time := some (min_list starts)
          end_time := some (max_list ends)
          description := if descriptions.isEmpty then e.description else py_join " | " descriptions }
    | _, _ => none

/-- `ConflictDetector._apply_resolution_strategy`.  `none` models the
exceptions the branch can raise: indexing `events[0]`/`events[-1]` on an empty
list, or `_merge_events` failing to parse a timestamp. -/
def apply_resolution_strategy (conflict : Conflict) (strategy : ResolutionStrategy)
    (user_decision : Option UserDecision) : Option ConflictResolution :=
  let build : List Ev → List Ev → ConflictResolution := fun resolved discarded =>
    { conflict_id := conflict.conflict_id
      strategy := strategy
      resolved_events := resolved
      discarded_events := discarded
      notes := user_decision.bind (·.notes) }
  match strategy with
  | .keep_existing =>
    match conflict.events with
    | [] => none
    | e :: rest => some (build [e] rest)
  | .replace_with_new =>
    match conflict.events with
    | [] => none
    | e :: rest => some (build [(e :: rest).getLast (by simp)] (e :: rest).dropLast)
  | .merge_events =>
    (merge_events conflict.events).map fun merged => build [merged] []
  | .user_decision =>
    match user_decision with
    | some d => some (build d.keep_events d.discard_events)
    | none => some (build conflict.events [])
  | _ => some (build conflict.events [])

/-- `ConflictDetector.resolve_conflict`: `ValueError` (left as `Except.error`)
when the id is unknown, otherwise the resolution is computed, recorded in
`self.resolutions` and returned.  The state is returned unchanged on every
error path. -/
def resolve_conflict (st : DetectorState) (conflict_id : String)
    (strategy : ResolutionStrategy) (user_decision : Option UserDecision) :
    Except String ConflictResolution × DetectorState :=
  match st.conflicts.lookup conflict_id with
  | none => (.error ("Conflict " ++ conflict_id ++ " not found"), st)
  | some conflict =>
    match apply_resolution_strategy conflict strategy user_decision with
    | none => (.error "ValueError", st)
    | some resolution =>
      (.ok resolution, { st with resolutions := dict_set st.resolutions conflict_id resolution })

end Conflicts

namespace Conflicts

/-- Event `A` of spec scenario S1 (`2024-01-15T10:00Z`–`11:00Z`, priority
medium); timestamps in seconds from 2024-01-15T00:00Z. -/
def ev_a : Ev :=
  { id := "a", title := some "A", start_time := some 36000, end_time := some 39600
    priority := some "medium" }

/-- Event `B` of spec scenario S1 (`10:30Z`–`11:30Z`, priority high). -/
def ev_b : Ev :=
  { id := "b", title := some "B", start_time := some 37800, end_time := some 41400
    priority := some "high" }

/-- The S1 input, in the order the spec lists it. -/
def s1_events : List Ev := [ev_a, ev_b]

/-- Detector state after running `detect_conflicts` on the S1 events from a
fresh engine (the detection succeeds, so the `getD` default is irrelevant). -/
def s1_state : DetectorState :=
  ((detect_conflicts {} s1_events none none).map Prod.snd).getD {}

/-- Lookup after a Python dictionary assignment at the same key. -/
theorem dict_set_lookup_self {α : Type} (m : List (String × α)) (k : String) (v : α) :
    (dict_set m k v).lookup k = some v := by
  induction m with
  | nil => simp [dict_set, List.lookup]
  | cons hd t ih =>
    obtain ⟨k', v'⟩ := hd
    by_cases hk : k' = k
    · subst hk
      simp [dict_set, List.lookup]
    · have hbe : (k == k') = false := beq_eq_false_iff_ne.mpr (Ne.symm hk)
      simp [dict_set, hk, List.lookup, hbe, ih]

/-- Lookup after a Python dictionary assignment at a different key. -/
theorem dict_set_lookup_ne {α : Type} (m : List (String × α)) {k j : String} (v : α)
    (h : k ≠ j) : (dict_set m j v).lookup k = m.lookup k := by
  have hbe : (k == j) = false := beq_eq_false_iff_ne.mpr h
  induction m with
  | nil => simp [dict_set, List.lookup, hbe]
  | cons hd t ih =>
    obtain ⟨k', v'⟩ := hd
    by_cases hk : k' = j
    · subst hk
      simp [dict_set, List.lookup, hbe]
    · simp [dict_set, hk, List.lookup, ih]

/-- Claim C2, counterexample: on the two S1 events the detector returns three
conflicts, not exactly one (the same overlap is emitted once from each side,
and a priority conflict is added). -/
theorem c2_s1_returns_three_conflicts :
    (detect_conflicts {} s1_events none none).map (fun p => p.1.length) = some 3 ∧
      ¬ (detect_conflicts {} s1_events none none).map (fun p => p.1.length) = some 1 := by
  constructor
  · decide
  · decide

/-- Claim C2 (amended): on the S1 events the detector returns exactly three
conflicts: a `time_overlap` conflict `overlap_a_b` with severity high,
suggested strategy `replace_with_new` and a 30-minute overlap, the same
conflict id a second time with the two events swapped, and a priority conflict
`priority_b_a` of severity medium also suggesting `replace_with_new`. -/
theorem c2_s1_detection_amended :
    (detect_conflicts {} s1_events none none).map (fun p => p.1.map (·.conflict_id)) =
        some ["overlap_a_b", "overlap_a_b", "priority_b_a"] ∧
      (detect_conflicts {} s1_events none none).map (fun p => p.1.map (·.conflict_type)) =
        some [.time_overlap, .time_overlap, .priority_conflict] ∧
      (detect_conflicts {} s1_events none none).map (fun p => p.1.map (·.severity)) =
        some [.high, .high, .medium] ∧
      (detect_conflicts {} s1_events none none).map (fun p => p.1.map (·.suggested_resolution)) =
        some [.replace_with_new, .replace_with_new, .replace_with_new] ∧
      (detect_conflicts {} s1_events none none).map
          (fun p => p.1.map (fun c => c.metadata.overlap_duration)) =
        some [some 30, some 30, none] ∧
      (detect_conflicts {} s1_events none none).map (fun p => p.1.map (·.events)) =
        some [[ev_a, ev_b], [ev_b, ev_a], [ev_b, ev_a]] := by
  refine ⟨?_, ?_, ?_, ?_, ?_, ?_⟩ <;> decide

/-- Claim C8, counterexample: merging the stored S1 conflict titles the result
`"B | A"` (the titles are joined with `" | "` in the stored order `[B, A]`),
not `"A|B"` as the claim states. -/
theorem c8_merge_title_is_b_bar_a :
    (except_ok (resolve_conflict s1_state "overlap_a_b" .merge_events none).1).map
        (fun r => r.resolved_events.map (·.title)) = some [some "B | A"] ∧
      ¬ (except_ok (resolve_conflict s1_state "overlap_a_b" .merge_events none).1).map
          (fun r => r.resolved_events.map (·.title)) = some [some "A|B"] := by
  constructor
  · decide
  · decide

/-- Claim C8 (amended): resolving any conflict with parseable timestamps by
`merge_events` yields exactly one resolved event spanning from the minimum
start to the maximum end, titled with the constituent titles joined by
`" | "` in the conflict's stored event order, and an empty discard list; for
the stored S1 conflict (recorded as `[B, A]` after the duplicate detection
overwrote the entry) the merged event is titled `"B | A"` and spans
2024-01-15T10:00Z–11:30Z with no discards. -/
theorem c8_merge_min_max_join_amended :
    (∀ (c : Conflict) (ud : Option UserDecision) (starts ends : List Int),
        all_some (c.events.map (·.start_time)) = some starts →
        all_some (c.events.map (·.end_time)) = some ends →
        c.events ≠ [] →
        (apply_resolution_strategy c .merge_events ud).map
            (fun r =>
              (r.conflict_id, r.strategy, r.discarded_events, r.notes,
                r.resolved_events.map fun m => (m.start_time, m.end_time, m.title))) =
          some
            (c.conflict_id, .merge_events, [], ud.bind (·.notes),
              [(some (min_list starts), some (max_list ends),
                some (py_join " | " (c.events.map fun e => e.title.getD "")))])) ∧
      (except_ok (resolve_conflict s1_state "overlap_a_b" .merge_events none).1).map
          (fun r =>
            (r.resolved_events.map fun m => (m.title, m.start_time, m.end_time),
              r.discarded_events)) =
        some ([(some "B | A", some 36000, some 41400)], []) := by
  constructor
  · intro c ud starts ends h1 h2 hne
    rcases hev : c.events with _ | ⟨e, rest⟩
    · exact absurd hev hne
    · rw [hev] at h1 h2
      simp only [apply_resolution_strategy, hev, merge_events, h1, h2]
      rfl
  · decide

/-- Witness for the universal part of the amended Claim C8, at a one-event
conflict built from the S1 event `A`. -/
theorem c8_merge_min_max_join_amended_witness :
    (apply_resolution_strategy
          { conflict_id := "w", conflict_type := .time_overlap, severity := .low
            description := "", events := [ev_a], suggested_resolution := .keep_existing
            resolution_options := [], metadata := {} }
          .merge_events none).map
        (fun r =>
          (r.conflict_id, r.strategy, r.discarded_events, r.notes,
            r.resolved_events.map fun m => (m.start_time, m.end_time, m.title))) =
      some
        ("w", .merge_events, [], none,
          [(some (min_list [36000]), some (max_list [39600]),
            some (py_join " | " ([ev_a].map fun e => e.title.getD "")))]) :=
  c8_merge_min_max_join_amended.1
    { conflict_id := "w", conflict_type := .time_overlap, severity := .low
      description := "", events := [ev_a], suggested_resolution := .keep_existing
      resolution_options := [], metadata := {} }
    none [36000] [39600] (by decide) (by decide) (by decide)

/-- Claim C10: resolving an unknown conflict id fails with the
`Conflict ... not found` error and leaves the state unchanged; a successful
resolution requires the id to be recorded and records the resolution under it;
consequently every recorded resolution refers to a recorded conflict. -/
theorem c10_resolve_requires_recorded_conflict :
    (∀ (st : DetectorState) (conflict_id : String) (strategy : ResolutionStrategy)
        (ud : Option UserDecision),
        st.conflicts.lookup conflict_id = none →
        resolve_conflict st conflict_id strategy ud =
          (.error ("Conflict " ++ conflict_id ++ " not found"), st)) ∧
      (∀ (st : DetectorState) (conflict_id : String) (strategy : ResolutionStrategy)
          (ud : Option UserDecision) (res : ConflictResolution) (st' : DetectorState),
          resolve_conflict st conflict_id strategy ud = (.ok res, st') →
          (st.conflicts.lookup conflict_id).isSome = true ∧
            st'.resolutions.lookup conflict_id = some res ∧
            st'.conflicts = st.conflicts) ∧
      (∀ (st : DetectorState) (conflict_id : String) (strategy : ResolutionStrategy)
          (ud : Option UserDecision),
          (∀ k, ((st.resolutions.lookup k).isSome = true →
            (st.conflicts.lookup k).isSome = true)) →
          ∀ k, (((resolve_conflict st conflict_id strategy ud).2.resolutions.lookup k).isSome = true →
            (((resolve_conflict st conflict_id strategy ud).2.conflicts.lookup k).isSome = true))) := by
  refine ⟨?_, ?_, ?_⟩
  · intro st conflict_id strategy ud h
    simp [resolve_conflict, h]
  · intro st conflict_id strategy ud res st' h
    rcases hc : st.conflicts.lookup conflict_id with _ | c
    · simp [resolve_conflict, hc] at h
    · rcases ha : apply_resolution_strategy c strategy ud with _ | r
      · simp [resolve_conflict, hc, ha] at h
      · simp only [resolve_conflict, hc, ha, Prod.mk.injEq, Except.ok.injEq] at h
        obtain ⟨hres, hst⟩ := h
        subst hres
        subst hst
        refine ⟨by simp [hc], ?_, rfl⟩
        exact dict_set_lookup_self _ _ _
  · intro st conflict_id strategy ud hinv k
    rcases hc : st.conflicts.lookup conflict_id with _ | c
    · simp only [resolve_conflict, hc]
      exact hinv k
    · rcases ha : apply_resolution_strategy c strategy ud with _ | r
      · simp only [resolve_conflict, hc, ha]
        exact hinv k
      · simp only [resolve_conflict, hc, ha]
        by_cases hk : k = conflict_id
        · subst hk
          intro _
          simp [hc]
        · rw [dict_set_lookup_ne _ _ hk]
          exact hinv k

/-- Witness for Claim C10: on a fresh engine, resolving the S1 conflict id
fails with the not-found error and changes nothing. -/
theorem c10_resolve_requires_recorded_conflict_witness :
    resolve_conflict {} "overlap_a_b" .keep_existing none =
      (.error ("Conflict " ++ "overlap_a_b" ++ " not found"), {}) :=
  c10_resolve_requires_recorded_conflict.1 {} "overlap_a_b" .keep_existing none (by decide)

end Conflicts

namespace Conflicts

/-- Helper: an event that ends exactly when the second starts does not overlap
it (`_events_overlap` is strict). -/
theorem events_overlap_touch_left {e1 e2 : Ev} {t : Int}
    (h1 : e1.end_time = some t) (h2 : e2.start_time = some t) :
    events_overlap e1 e2 = false := by
  unfold events_overlap
  rw [h1, h2]
  rcases e1.start_time with _ | s1 <;> rcases e2.end_time with _ | en2 <;> simp

/-- Helper: the same boundary touch seen from the later event. -/
theorem events_overlap_touch_right {e1 e2 : Ev} {t : Int}
    (h1 : e1.end_time = some t) (h2 : e2.start_time = some t) :
    events_overlap e2 e1 = false := by
  unfold events_overlap
  rw [h1, h2]
  rcases e2.end_time with _ | en2 <;> rcases e1.start_time with _ | s1 <;> simp

/-- Claim C9: two events with parseable timestamps that merely touch at a
boundary (`end_a = start_b`) produce no conflict of any kind, and the engine
state is unchanged. -/
theorem c9_zero_second_boundary_no_conflict :
    ∀ (st : DetectorState) (e1 e2 : Ev) (t : Int),
      e1.start_time.isSome = true →
      e1.end_time = some t →
      e2.start_time = some t →
      detect_conflicts st [e1, e2] none none = some ([], st) := by
  intro st e1 e2 t hs1 he1 hs2
  have hov12 : events_overlap e1 e2 = false := events_overlap_touch_left he1 hs2
  have hov21 : events_overlap e2 e1 = false := events_overlap_touch_right he1 hs2
  have hall : ([e1, e2].all fun e => e.start_time.isSome) = true := by
    simp [hs1, hs2]
  unfold detect_conflicts
  rw [hall]
  by_cases hle : ev_le e1 e2 <;>
    simp [List.insertionSort, List.orderedInsert, hle, detect_loop,
      detect_priority_conflicts, detect_recurring_conflicts, hov12, hov21]

/-- Witness for Claim C9: two concrete back-to-back events
(00:00–01:00 and 01:00–02:00) yield no conflict. -/
theorem c9_zero_second_boundary_no_conflict_witness :
    detect_conflicts {}
        [{ id := "p", start_time := some 0, end_time := some 3600 },
          { id := "q", start_time := some 3600, end_time := some 7200 }] none none =
      some ([], {}) :=
  c9_zero_second_boundary_no_conflict {}
    { id := "p", start_time := some 0, end_time := some 3600 }
    { id := "q", start_time := some 3600, end_time := some 7200 }
    3600 (by decide) (by decide) (by decide)

/-- Two sorted event lists that are permutations of each other with pairwise
distinct sort keys are equal (uniqueness of the stable sort result). -/
theorem sorted_eq_of_perm_of_nodup_key :
    ∀ {l₁ l₂ : List Ev}, l₁.Perm l₂ → l₁.Sorted ev_le → l₂.Sorted ev_le →
      (l₁.map start_key).Nodup → l₁ = l₂ := by
  intro l₁
  induction l₁ with
  | nil =>
    intro l₂ h _ _ _
    exact h.nil_eq
  | cons a t₁ ih =>
    intro l₂ h s₁ s₂ nd
    rcases l₂ with _ | ⟨b, t₂⟩
    · exact (List.cons_ne_nil a t₁ h.eq_nil).elim
    · by_cases hab : a = b
      · subst hab
        have ht : t₁.Perm t₂ := h.cons_inv
        have hnd : (t₁.map start_key).Nodup := (List.nodup_cons.mp (by simpa using nd)).2
        rw [ih ht s₁.of_cons s₂.of_cons hnd]
      · exfalso
        have ha : a ∈ t₂ := by
          rcases List.mem_cons.mp (h.mem_iff.mp (List.mem_cons_self a t₁)) with h' | h'
          · exact absurd h' hab
          · exact h'
        have hb : b ∈ t₁ := by
          rcases List.mem_cons.mp (h.symm.mem_iff.mp (List.mem_cons_self b t₂)) with h' | h'
          · exact absurd h'.symm hab
          · exact h'
        have hab1 : ev_le a b := (List.sorted_cons.mp s₁).1 b hb
        have hab2 : ev_le b a := (List.sorted_cons.mp s₂).1 a ha
        have hkey : start_key a = start_key b := le_antisymm hab1 hab2
        have hmem : start_key b ∈ t₁.map start_key := List.mem_map_of_mem _ hb
        rw [← hkey] at hmem
        exact (List.nodup_cons.mp (by simpa using nd)).1 hmem

/-- Claim C7 (amended): for events with pairwise distinct parsed start times,
conflict detection is invariant under permutation of the input list — the two
runs return identical conflict lists and states.  (With equal start times the
stable sort, and hence the asymmetric priority check, depends on input
order.) -/
theorem c7_detection_permutation_invariant :
    ∀ (st : DetectorState) (l₁ l₂ : List Ev) (ws we : Option Int),
      l₁.Perm l₂ → (l₁.map start_key).Nodup →
      detect_conflicts st l₁ ws we = detect_conflicts st l₂ ws we := by
  intro st l₁ l₂ ws we hperm hnd
  have hall : (l₁.all fun e => e.start_time.isSome) = (l₂.all fun e => e.start_time.isSome) := by
    rw [Bool.eq_iff_iff]
    simp only [List.all_eq_true]
    exact ⟨fun h x hx => h x (hperm.mem_iff.mpr hx), fun h x hx => h x (hperm.mem_iff.mp hx)⟩
  have hsort : List.insertionSort ev_le l₁ = List.insertionSort ev_le l₂ := by
    apply sorted_eq_of_perm_of_nodup_key
    · exact (List.perm_insertionSort ev_le l₁).trans
        (hperm.trans (List.perm_insertionSort ev_le l₂).symm)
    · exact List.sorted_insertionSort ev_le l₁
    · exact List.sorted_insertionSort ev_le l₂
    · exact (((List.perm_insertionSort ev_le l₁).map start_key).nodup_iff).mpr hnd
  unfold detect_conflicts
  rw [hall, hsort]

/-- Witness for the amended Claim C7: swapping the two S1 events (distinct
start times) leaves the detection result unchanged. -/
theorem c7_detection_permutation_invariant_witness :
    detect_conflicts {} [ev_a, ev_b] none none = detect_conflicts {} [ev_b, ev_a] none none :=
  c7_detection_permutation_invariant {} [ev_a, ev_b] [ev_b, ev_a] none none
    (by decide) (by decide)

/-- Event with priority `high` sharing its start instant with `ev_y`. -/
def ev_x : Ev :=
  { id := "x", title := some "X", start_time := some 36000, end_time := some 39600
    priority := some "high" }

/-- Event with priority `low` sharing its start instant with `ev_x`. -/
def ev_y : Ev :=
  { id := "y", title := some "Y", start_time := some 36000, end_time := some 39600
    priority := some "low" }

/-- Claim C7, counterexample: for two overlapping events with equal start
times the conflict-id set depends on the input order — the permuted input
additionally produces the priority conflict `priority_x_y`. -/
theorem c7_same_start_order_dependent :
    List.Perm [ev_x, ev_y] [ev_y, ev_x] ∧
      (detect_conflicts {} [ev_x, ev_y] none none).map
          (fun p => (p.1.map (·.conflict_id)).contains "priority_x_y") = some false ∧
      (detect_conflicts {} [ev_y, ev_x] none none).map
          (fun p => (p.1.map (·.conflict_id)).contains "priority_x_y") = some true := by
  refine ⟨by decide, by decide, by decide⟩

end Conflicts

/-- Exact fraction with positive denominator, the model of the Python `float`
arithmetic of the fitness score (all of it is exact decimal arithmetic, far
inside the range where `float` is exact on these inputs).  The representation
is not reduced; comparisons go by cross multiplication, which is valid because
every denominator constructed below is positive. -/
structure PyFloat where
  num : Int
  den : Int
deriving DecidableEq

/-- Embed an integer as a fraction. -/
def pf_of_int (n : Int) : PyFloat :=
  ⟨n, 1⟩

/-- Fraction addition. -/
def pf_add (a b : PyFloat) : PyFloat :=
  ⟨a.num * b.den + b.num * a.den, a.den * b.den⟩

/-- Fraction multiplication. -/
def pf_mul (a b : PyFloat) : PyFloat :=
  ⟨a.num * b.num, a.den * b.den⟩

/-- Fraction division (the divisors used below are positive). -/
def pf_div (a b : PyFloat) : PyFloat :=
  ⟨a.num * b.den, a.den * b.num⟩

/-- Strict comparison by cross multiplication (valid for positive
denominators). -/
def pf_lt (a b : PyFloat) : Bool :=
  decide (a.num * b.den < b.num * a.den)

namespace Sched

/-- The `TimeSlot` dataclass of `simple_scheduler.py`.  Times are minutes from
a fixed reference Monday 00:00 (so `datetime.weekday()` is day-index mod 7);
the Python attribute `end` is a Lean keyword and is rendered `end_`. -/
structure TimeSlot where
  start : Int
  end_ : Int
  is_available : Bool := true
  event_id : Option String := none
  event_title : Option String := none
deriving DecidableEq

/-- The `Task` dataclass of `simple_scheduler.py`.  `preferred_time` holds the
hour of the Python `time` object (the only attribute the source reads); the
unused `dependencies` field is omitted. -/
structure Task where
  id : String
  title : String
  duration_minutes : Int
  priority : Int
  deadline : Option Int := none
  preferred_time : Option Int := none
  category : String := "general"
deriving DecidableEq

/-- The `UserPreferences` dataclass of `simple_scheduler.py`; `time`-of-day
fields are minutes into the day.  The `timezone` field only feeds
`pytz.timezone` and is never applied to a datetime, so it is omitted. -/
structure UserPreferences where
  work_start : Int := 540
  work_end : Int := 1020
  break_duration : Int := 15
  break_frequency : Int := 90
  lunch_time : Int := 720
  lunch_duration : Int := 60
  preferred_task_duration : Int := 90
deriving DecidableEq

/-- Midnight of the day containing `t` (`datetime.replace(hour=0, minute=0,
second=0, microsecond=0)`). -/
def day_start (t : Int) : Int :=
  Int.fdiv t 1440 * 1440

/-- Python `t.replace(hour=h, minute=m)` where `hm` is the minutes-into-day
value `h*60+m`. -/
def replace_time (t hm : Int) : Int :=
  day_start t + hm

/-- Python `datetime.weekday()`: 0 is Monday, the reference instant being a
Monday midnight. -/
def weekday (t : Int) : Int :=
  Int.emod (Int.fdiv t 1440) 7

/-- Python `datetime.hour`. -/
def hour_of (t : Int) : Int :=
  Int.fdiv (Int.emod t 1440) 60

/-- Inner loop of `SimpleScheduler._subtract_existing_events` for one slot:
walk the existing events in list order, emitting the piece before each
overlapping event and advancing `current_start` past it; returns the pieces and
the final `current_start`. -/
def subtract_one_slot (slot_end : Int) : Int → List TimeSlot → List TimeSlot × Int
  | current_start, [] => ([], current_start)
  | current_start, event :: rest =>
    if event.start ≥ slot_end || event.end_ ≤ current_start then
      subtract_one_slot slot_end current_start rest
    else
      let pre :=
        if current_start < event.start then
          [{ start := current_start, end_ := event.start : TimeSlot }]
        else []
      let next := max current_start event.end_
      let (tl, fin) := subtract_one_slot slot_end next rest
      (pre ++ tl, fin)

/-- `SimpleScheduler._subtract_existing_events`: per slot, the pieces produced
by the walk plus the remaining tail `[current_start, slot_end)` if nonempty. -/
def subtract_existing_events (available_slots existing_events : List TimeSlot) :
    List TimeSlot :=
  available_slots.foldr
    (fun slot acc =>
      let (pieces, fin) := subtract_one_slot slot.end_ slot.start existing_events
      (pieces ++
        (if fin < slot.end_ then [{ start := fin, end_ := slot.end_ : TimeSlot }] else [])) ++ acc)
    []

/-- While-loop of `SimpleScheduler._add_breaks_and_lunch` for one slot,
fuel-bounded (`none` only if the fuel runs out, which the callers below never
let happen). -/
def breaks_loop (prefs : UserPreferences) (lunch_time slot_end : Int) :
    Nat → Int → Option (List TimeSlot)
  | 0, _ => none
  | fuel + 1, current_time =>
    if current_time < slot_end then
      let next_break := current_time + prefs.break_frequency
      let work_end := min next_break slot_end
      if current_time ≤ lunch_time ∧ lunch_time ≤ work_end then
        (breaks_loop prefs lunch_time slot_end fuel (lunch_time + prefs.lunch_duration)).map
          fun tl =>
            (if current_time < lunch_time then
              [{ start := current_time, end_ := lunch_time : TimeSlot }]
            else []) ++ tl
      else
        let nxt := if work_end < slot_end then work_end + prefs.break_duration else work_end
        (breaks_loop prefs lunch_time slot_end fuel nxt).map
          fun tl => { start := current_time, end_ := work_end : TimeSlot } :: tl
    else some []

/-- `SimpleScheduler._add_breaks_and_lunch`. -/
def add_breaks_and_lunch (prefs : UserPreferences) (break_fuel : Nat)
    (available_slots : List TimeSlot) (date : Int) : Option (List TimeSlot) :=
  available_slots.foldr
    (fun slot acc =>
      match breaks_loop prefs (replace_time date prefs.lunch_time) slot.end_ break_fuel slot.start,
          acc with
      | some pieces, some rest => some (pieces ++ rest)
      | _, _ => none)
    (some [])

/-- Day loop of `SimpleScheduler.generate_available_slots`: for each day up to
`end_date`, skip weekends, carve the work window by the existing events, then
inject breaks and lunch.  Fuel-bounded like the while loop it models. -/
def days_loop (prefs : UserPreferences) (existing_events : List TimeSlot) (end_date : Int)
    (break_fuel : Nat) : Nat → Int → Option (List TimeSlot)
  | fuel, current_date =>
    if current_date ≤ end_date then
      match fuel with
      | 0 => none
      | fuel' + 1 =>
        if weekday current_date ≥ 5 then
          days_loop prefs existing_events end_date break_fuel fuel' (current_date + 1440)
        else
          let work_slot : TimeSlot :=
            { start := replace_time current_date prefs.work_start
              end_ := replace_time current_date prefs.work_end }
          let available_periods := subtract_existing_events [work_slot] existing_events
          match add_breaks_and_lunch prefs break_fuel available_periods current_date with
          | none => none
          | some avail =>
            (days_loop prefs existing_events end_date break_fuel fuel' (current_date + 1440)).map
              (avail ++ ·)
    else some []

/-- `SimpleScheduler.generate_available_slots`. -/
def generate_available_slots (prefs : UserPreferences) (start_date end_date : Int)
    (existing_events : List TimeSlot) (day_fuel break_fuel : Nat) : Option (List TimeSlot) :=
  days_loop prefs existing_events end_date break_fuel day_fuel (day_start start_date)

/-- `SimpleScheduler._calculate_slot_fitness`, over exact fractions in place of
Python floats (all the arithmetic used is exact). -/
def calculate_slot_fitness (task : Task) (slot : TimeSlot) : PyFloat :=
  let deadline_score : PyFloat :=
    match task.deadline with
    | some dl =>
      let time_until_deadline := pf_div (pf_of_int (dl - slot.start)) (pf_of_int 60)
      if pf_lt (pf_of_int 0) time_until_deadline then
        pf_div (pf_of_int 100)
          (pf_add (pf_of_int 1) (pf_div time_until_deadline (pf_of_int 24)))
      else pf_of_int 0
    | none => pf_of_int 0
  let preferred_score : PyFloat :=
    match task.preferred_time with
    | some preferred_hour =>
      pf_div (pf_of_int 50)
        (pf_add (pf_of_int 1) (pf_of_int ((preferred_hour - hour_of slot.start).natAbs)))
    | none => pf_of_int 0
  let priority_score : PyFloat := pf_of_int ((11 - task.priority) * 10)
  let morning_score : PyFloat :=
    if task.priority ≤ 3 ∧ hour_of slot.start < 12 then pf_of_int 20 else pf_of_int 0
  let slot_duration : PyFloat := pf_of_int (slot.end_ - slot.start)
  let fragmentation_score : PyFloat :=
    if pf_lt (pf_mul (pf_of_int task.duration_minutes) (pf_div (pf_of_int 3) (pf_of_int 2)))
        slot_duration then
      pf_of_int 10
    else pf_of_int 0
  pf_add (pf_add (pf_add (pf_add deadline_score preferred_score) priority_score) morning_score)
    fragmentation_score

/-- First-maximum selection, the behaviour of Python `max(..., key=...)`:
a later element replaces the current best only when strictly greater. -/
def max_by_score : TimeSlot → PyFloat → List (TimeSlot × PyFloat) → TimeSlot
  | best, _, [] => best
  | best, best_score, (s, sc) :: rest =>
    if pf_lt best_score sc then max_by_score s sc rest else max_by_score best best_score rest

/-- `SimpleScheduler._find_best_slot_for_task`. -/
def find_best_slot_for_task (task : Task) (available_slots : List TimeSlot) :
    Option TimeSlot :=
  let suitable_slots := available_slots.filterMap fun slot =>
    if slot.end_ - slot.start ≥ task.duration_minutes then
      some (slot, calculate_slot_fitness task slot)
    else none
  match suitable_slots with
  | [] => none
  | (s, sc) :: rest => some (max_by_score s sc rest)

/-- `SimpleScheduler._remove_scheduled_time`. -/
def remove_scheduled_time (available_slots : List TimeSlot) (scheduled_slot : TimeSlot) :
    List TimeSlot :=
  available_slots.foldr
    (fun slot acc =>
      if scheduled_slot.end_ ≤ slot.start || scheduled_slot.start ≥ slot.end_ then slot :: acc
      else
        (if slot.start < scheduled_slot.start then
          [{ start := slot.start, end_ := scheduled_slot.start : TimeSlot }]
        else []) ++
        (if slot.end_ > scheduled_slot.end_ then
          [{ start := scheduled_slot.end_, end_ := slot.end_ : TimeSlot }]
        else []) ++ acc)
    []

/-- Deadline comparison inside the task sort key, with an absent deadline
acting as `float('inf')`. -/
def deadline_lt (a b : Option Int) : Bool :=
  match a, b with
  | some x, some y => decide (x < y)
  | some _, none => true
  | none, some _ => false
  | none, none => false

/-- Deadline equality inside the task sort key (`inf == inf` holds). -/
def deadline_eq (a b : Option Int) : Bool :=
  match a, b with
  | some x, some y => x == y
  | none, none => true
  | _, _ => false

/-- Non-strict lexicographic comparison of the task sort keys
`(priority, deadline-or-inf, -duration_minutes)` of `schedule_tasks`. -/
def task_le (a b : Task) : Bool :=
  decide (a.priority < b.priority) ||
    (a.priority == b.priority &&
      (deadline_lt a.deadline b.deadline ||
        (deadline_eq a.deadline b.deadline &&
          decide (-a.duration_minutes ≤ -b.duration_minutes))))

/-- Propositional form of `task_le`, for the stable sort. -/
def task_le_p (a b : Task) : Prop :=
  task_le a b = true

instance : DecidableRel task_le_p := fun a b => by
  unfold task_le_p; infer_instance

/-- Greedy loop of `SimpleScheduler.schedule_tasks` over the sorted tasks. -/
def schedule_loop : List TimeSlot → List Task → List TimeSlot × List Task
  | _, [] => ([], [])
  | available_slots, task :: rest =>
    match find_best_slot_for_task task available_slots with
    | some best_slot =>
      let task_slot : TimeSlot :=
        { start := best_slot.start
          end_ := best_slot.start + task.duration_minutes
          is_available := false
          event_id := some task.id
          event_title := some task.title }
      let step := schedule_loop (remove_scheduled_time available_slots task_slot) rest
      (task_slot :: step.1, step.2)
    | none =>
      let step := schedule_loop available_slots rest
      (step.1, task :: step.2)

/-- `SimpleScheduler.schedule_tasks`: stable sort by
`(priority, deadline, -duration)`, then greedy placement. -/
def schedule_tasks (tasks : List Task) (available_slots : List TimeSlot) :
    List TimeSlot × List Task :=
  schedule_loop available_slots (List.insertionSort task_le_p tasks)

/-- Strict interval overlap of two slots. -/
def slots_overlap (a b : TimeSlot) : Bool :=
  decide (a.start < b.end_) && decide (a.end_ > b.start)

/-- Existing events of the C5 failing input, deliberately listed out of start
order: 13:00–14:00 before 10:00–11:00, both on the reference Monday. -/
def c5_events : List TimeSlot :=
  [{ start := 780, end_ := 840 }, { start := 600, end_ := 660 }]

/-- The single task of the C5 failing input: 80 minutes, priority 1. -/
def c5_task : Task :=
  { id := "t1", title := "Task 1", duration_minutes := 80, priority := 1 }

/-- Claim C5, evaluation at the failing input: with default preferences and the
existing events listed out of chronological order, the pipeline schedules the
task at 09:00–10:20, which overlaps the existing 10:00–11:00 event — the
invariant `no scheduled slot overlaps a fixed existing event` fails on the
code. -/
theorem c5_scheduled_slot_overlaps_existing_event :
    (generate_available_slots {} 480 1020 c5_events 2 20).map
        (fun avail =>
          (schedule_tasks [c5_task] avail).1.map fun s => (s.event_id, s.start, s.end_)) =
      some [(some "t1", 540, 620)] ∧
      (generate_available_slots {} 480 1020 c5_events 2 20).map
        (fun avail => (schedule_tasks [c5_task] avail).2) = some [] ∧
      (generate_available_slots {} 480 1020 c5_events 2 20).map
        (fun avail =>
          (schedule_tasks [c5_task] avail).1.any fun s => c5_events.any (slots_overlap s)) =
      some true := by
  refine ⟨by decide, by decide, by decide⟩

end Sched


namespace LLMSched

/-- JSON value, the shape of `json.loads` output consumed by
`_parse_scheduling_response` (`openrouter_client.py`); numbers are exact
fractions. -/
inductive J where
  | null
  | jbool (b : Bool)
  | num (n : PyFloat)
  | str (s : String)
  | arr (xs : List J)
  | obj (fields : List (String × J))

/-- Python `dict.get(key)` on a parsed JSON object. -/
def j_get : List (String × J) → String → Option J
  | [], _ => none
  | (k, v) :: rest, key => if k == key then some v else j_get rest key

/-- The `SchedulingResult` dataclass of `openrouter_client.py`.  The dataclass
performs no validation, so `scheduled_events`, `reasoning`,
`alternative_suggestions` and `warnings` hold whatever JSON values the LLM
emitted. -/
structure SchedulingResult where
  scheduled_events : J
  reasoning : J
  confidence_score : PyFloat
  alternative_suggestions : J
  warnings : J

/-- Python `float(x)` on the JSON values exercised by the pipeline: numbers
pass through, booleans coerce to 0/1, anything else raises (numeric strings,
which Python would also accept, do not occur in the modelled inputs). -/
def py_float : J → Option PyFloat
  | .num n => some n
  | .jbool b => some (pf_of_int (if b then 1 else 0))
  | _ => none

/-- `OpenAIClient._parse_scheduling_response`, modelled at the level of the
already-parsed JSON object (the source first slices the completion text from
the first `\x7b` to the last `\x7d` and runs `json.loads`; a missing or
malformed JSON body raises before this point).  Every field is read with
`parsed.get(...)` and stored unvalidated; only the `float(...)` conversion of
`confidence_score` can raise. -/
def parse_scheduling_response (parsed : List (String × J)) : Option SchedulingResult :=
  (py_float ((j_get parsed "confidence_score").getD (.num ⟨1, 2⟩))).map fun conf =>
    { scheduled_events := (j_get parsed "scheduled_events").getD (.arr [])
      reasoning := (j_get parsed "reasoning").getD (.str "")
      confidence_score := conf
      alternative_suggestions := (j_get parsed "alternative_suggestions").getD (.arr [])
      warnings := (j_get parsed "warnings").getD (.arr []) }

/-- The `TaskInput` request model of the scheduler's `main.py` (the fields the
endpoint itself reads). -/
structure TaskInput where
  id : String
  title : String := ""
  estimated_duration_minutes : Int := 60
  priority : String := "medium"

/-- The `ScheduleResponse` model of the scheduler's `main.py`
(`processing_time_seconds` is wall-clock plumbing and is omitted). -/
structure ScheduleResponse where
  success : Bool
  scheduled_events : List J
  reasoning : J
  confidence_score : PyFloat
  alternative_suggestions : J
  warnings : J
  unscheduled_tasks : List String

/-- Python `event.get("task_id")` inside the endpoint's set comprehension:
`none` (outer) models the `AttributeError` on a non-dict entry, `some none` a
dict without the key. -/
def event_get_task_id : J → Option (Option J)
  | .obj fields => some (j_get fields "task_id")
  | _ => none

/-- Python `task.id in scheduled_task_ids`: string equality against each
member; a `None` or non-string member never equals a string. -/
def py_id_eq (v : Option J) (s : String) : Bool :=
  match v with
  | some (.str t) => t == s
  | _ => false

/-- The `generate_schedule` endpoint of the scheduler's `main.py`, from the
point where the LLM client returned a `SchedulingResult`: compute the
unscheduled task ids as the inputs whose id does not appear among the emitted
events' `task_id`s, and return everything else untouched.  `none` models the
`TypeError`/`AttributeError` 500-path when `scheduled_events` is not a list of
dicts. -/
def generate_schedule_endpoint (tasks : List TaskInput) (result : SchedulingResult) :
    Option ScheduleResponse :=
  match result.scheduled_events with
  | .arr events =>
    (all_some (events.map event_get_task_id)).map fun scheduled_task_ids =>
      { success := true
        scheduled_events := events
        reasoning := result.reasoning
        confidence_score := result.confidence_score
        alternative_suggestions := result.alternative_suggestions
        warnings := result.warnings
        unscheduled_tasks :=
          (tasks.filter fun task => !(scheduled_task_ids.any fun v => py_id_eq v task.id)).map
            (·.id) }
  | _ => none

/-- The single input task of the C6 counterexample. -/
def c6_task : TaskInput :=
  { id := "t1", title := "Write report" }

/-- Fields of an invalid scheduled event: its `end_time` equals its
`start_time`, so it is not strictly positive in length. -/
def c6_bad_fields : List (String × J) :=
  [("task_id", .str "t1"), ("title", .str "Write report"),
    ("start_time", .str "2024-01-15 10:00:00"), ("end_time", .str "2024-01-15 10:00:00")]

/-- The invalid scheduled event as a JSON object. -/
def c6_bad_event : J :=
  .obj c6_bad_fields

/-- A parsed LLM response whose only scheduled event is the invalid one and
which carries no warnings. -/
def c6_parsed : List (String × J) :=
  [("scheduled_events", .arr [c6_bad_event]), ("reasoning", .str "done"),
    ("confidence_score", .num ⟨9, 10⟩)]

/-- The response the endpoint actually returns on the counterexample input. -/
def c6_resp : ScheduleResponse :=
  { success := true
    scheduled_events := [c6_bad_event]
    reasoning := .str "done"
    confidence_score := ⟨9, 10⟩
    alternative_suggestions := .arr []
    warnings := .arr []
    unscheduled_tasks := [] }

/-- Claim C6, counterexample: the pipeline returns the zero-length event
unchanged in `scheduled_events`, adds no warning, and reports no unscheduled
task (the claim demands the invalid entry be removed, listed in warnings, and
`t1` reported unscheduled). -/
theorem c6_invalid_event_passed_through :
    (parse_scheduling_response c6_parsed).bind (generate_schedule_endpoint [c6_task]) =
        some c6_resp ∧
      j_get c6_bad_fields "end_time" = j_get c6_bad_fields "start_time" ∧
      j_get c6_bad_fields "end_time" = some (.str "2024-01-15 10:00:00") := by
  refine ⟨rfl, rfl, rfl⟩

/-- Claim C6 (amended): the pipeline validates nothing — whatever scheduled
events the LLM emitted are returned exactly as parsed, the warnings are
exactly the parsed ones, and `unscheduled_tasks` is the input ids minus the
`task_id` strings appearing among the emitted events, with no notion of a
"validated" event. -/
theorem c6_no_validation_amended :
    ∀ (tasks : List TaskInput) (parsed : List (String × J)) (events : List J)
      (resp : ScheduleResponse),
      j_get parsed "scheduled_events" = some (.arr events) →
      (parse_scheduling_response parsed).bind (generate_schedule_endpoint tasks) = some resp →
      resp.scheduled_events = events ∧
        resp.warnings = (j_get parsed "warnings").getD (.arr []) ∧
        ∃ ids, all_some (events.map event_get_task_id) = some ids ∧
          resp.unscheduled_tasks =
            (tasks.filter fun task => !(ids.any fun v => py_id_eq v task.id)).map (·.id) := by
  intro tasks parsed events resp h1 h2
  unfold parse_scheduling_response at h2
  rcases hf : py_float ((j_get parsed "confidence_score").getD (.num ⟨1, 2⟩)) with _ | conf
  · rw [hf] at h2
    simp at h2
  · rw [hf] at h2
    simp only [Option.map_some', Option.some_bind] at h2
    unfold generate_schedule_endpoint at h2
    simp only [h1, Option.getD_some] at h2
    rcases hids : all_some (events.map event_get_task_id) with _ | ids
    · rw [hids] at h2
      simp at h2
    · rw [hids] at h2
      simp only [Option.map_some', Option.some.injEq] at h2
      subst h2
      exact ⟨rfl, rfl, ids, rfl, rfl⟩

/-- Witness for the amended Claim C6, at the counterexample input. -/
theorem c6_no_validation_amended_witness :
    c6_resp.scheduled_events = [c6_bad_event] ∧
      c6_resp.warnings = (j_get c6_parsed "warnings").getD (.arr []) ∧
      ∃ ids, all_some ([c6_bad_event].map event_get_task_id) = some ids ∧
        c6_resp.unscheduled_tasks =
          ([c6_task].filter fun task => !(ids.any fun v => py_id_eq v task.id)).map (·.id) :=
  c6_no_validation_amended [c6_task] c6_parsed [c6_bad_event] c6_resp rfl rfl

end LLMSched

namespace Orch

/-- Arguments of an LLM tool call as seen by `custom_tool_node`
(`orchestrator_agent.py`): either an already-structured mapping or a serialized
string, the latter modelled by its `json.loads` result (`none` for a
`JSONDecodeError`, which the node replaces by the empty mapping).  Argument
values are strings — the only values the modelled handlers and the tracker
read. -/
inductive ArgsIn where
  | parsed (args : List (String × String))
  | raw (parse_result : Option (List (String × String)))
deriving DecidableEq

/-- A tool call emitted by the LLM (`{"id", "name", "args"}`). -/
structure ToolCall where
  name : String
  args : ArgsIn
  id : String
deriving DecidableEq

/-- LangChain message as used by the agent state: `HumanMessage`, `AIMessage`
(with its `tool_calls`), or `ToolMessage`. -/
inductive Msg where
  | human (content : String)
  | ai (content : String) (tool_calls : List ToolCall)
  | tool (content : String) (tool_call_id : String) (name : String)
deriving DecidableEq

/-- The `AgentState` TypedDict of `orchestrator_agent.py`.  `user_context` is
consulted by the response builder only through its `last_suggestions` key,
kept here as a list (empty in the initial state); `next_action` is never read
and is omitted. -/
structure AgentState where
  messages : List Msg
  user_id : String
  conversation_id : String
  tools_used : List String := []
  schedule_updated : Bool := false
  bricks_created : List String := []
  bricks_updated : List String := []
  resources_recommended : List String := []
  last_suggestions : List String := []
deriving DecidableEq

/-- Names of the fifteen tools registered by `_initialize_tools`, in
registration order. -/
def tool_names : List String :=
  ["schedule_brick", "optimize_schedule", "get_schedule",
    "create_brick", "update_brick", "get_bricks", "create_quanta", "update_quanta",
    "get_quantas", "delete_brick", "delete_quanta",
    "get_resource_recommendations", "search_resources",
    "get_calendar_events", "sync_calendar"]

/-- The `tools_needing_user_id` list of `custom_tool_node`: the tools whose
`user_id` argument is overlaid from the turn state. -/
def tools_needing_user_id : List String :=
  ["create_brick", "get_bricks", "update_brick", "delete_brick",
    "get_quantas", "create_quanta", "update_quanta", "delete_quanta",
    "schedule_brick", "optimize_schedule", "get_schedule",
    "get_resource_recommendations", "search_resources",
    "get_calendar_events", "sync_calendar"]

/-- Structured arguments obtained from a tool call: a parsed string that fails
to decode becomes the empty mapping. -/
def args_of : ArgsIn → List (String × String)
  | .parsed args => args
  | .raw (some args) => args
  | .raw none => []

/-- A brick row as created through the web API by `CreateBrickTool`
(`brick_management_tools.py`): the payload's `user_id` is the owner. -/
structure Brick where
  id : String
  user_id : String
  title : String
deriving DecidableEq

/-- The store behind the web API `POST /api/v1/bricks` endpoint, with a
counter generating fresh ids. -/
structure World where
  bricks : List Brick := []
  next_id : Nat := 0
deriving DecidableEq

/-- Result of one tool handler run: the string `arun` returned, or the message
of the exception it raised. -/
inductive ToolOutcome where
  | ok (result : String)
  | exn (message : String)
deriving DecidableEq

/-- Behaviour of the tool handlers (which go through HTTP to other services):
a function from tool name, structured arguments and store to outcome and
store.  The dispatcher is proved correct for every such environment. -/
def ToolEnv : Type :=
  String → List (String × String) → World → ToolOutcome × World

/-- `CreateBrickTool._arun` on the success path: the brick is inserted with
`user_id` taken from the (injected) arguments, and the tool returns the
`Successfully created Brick '<title>' with ID <id>. ...` string that
`_track_tool_execution` parses. -/
def create_brick_run (args : List (String × String)) (w : World) : String × World :=
  let title := (args.lookup "title").getD ""
  let uid := (args.lookup "user_id").getD ""
  let brick_id := "brick-" ++ toString w.next_id
  ("Successfully created Brick \x27" ++ title ++ "\x27 with ID " ++ brick_id ++
      ". You can now add Quantas (sub-tasks) to break it down further!",
    { bricks := w.bricks ++ [{ id := brick_id, user_id := uid, title := title }],
      next_id := w.next_id + 1 })

/-- Environment in which `create_brick` behaves as `CreateBrickTool._arun`
against the brick store and every other handler succeeds with a stub reply
(their bodies are HTTP plumbing outside the modelled core). -/
def world_env : ToolEnv := fun name args w =>
  if name == "create_brick" then
    let r := create_brick_run args w
    (.ok r.1, r.2)
  else (.ok ("ok " ++ name), w)

/-- Ids pushed into `bricks_created` by `_track_tool_execution` for one
`create_brick` result: the id parsed out of
`... with ID <id>. ...` on success-looking results, the `title` argument (or
`"Unknown"`) when the marker text is absent or the split fails
(`IndexError` branch). -/
def created_delta (result : String) (tool_args : List (String × String)) : List String :=
  if py_contains result "Successfully created" && py_contains result "with ID" then
    match py_split result "with ID " with
    | _ :: second :: _ => [py_strip ((py_split second ".").headD "")]
    | _ => [(tool_args.lookup "title").getD "Unknown"]
  else [(tool_args.lookup "title").getD "Unknown"]

/-- Ids pushed into `bricks_updated` by `_track_tool_execution` for one
`update_brick` result. -/
def updated_delta (result : String) (tool_args : List (String × String)) : List String :=
  if py_contains result "Successfully updated" || py_contains result "updated successfully" then
    [(tool_args.lookup "brick_id").getD "Unknown"]
  else []

/-- `OrchestratorAgent._track_tool_execution`: mutate the causal metadata for
one successful tool run and append the tool to `tools_used`.  The
`create_quanta` branch only logs and changes nothing. -/
def track_tool_execution (st : AgentState) (tool_name result : String)
    (tool_args : List (String × String)) : AgentState :=
  { st with
    bricks_created :=
      st.bricks_created ++ (if tool_name == "create_brick" then created_delta result tool_args else [])
    bricks_updated :=
      st.bricks_updated ++ (if tool_name == "update_brick" then updated_delta result tool_args else [])
    tools_used := st.tools_used ++ [tool_name] }

/-- Dispatch loop of `custom_tool_node` over the tool calls of the last
assistant message, in emission order: parse arguments, overlay `user_id` from
the state for identity-bound tools, look the tool up by name and run it,
turning the result or exception into a `ToolMessage`.  Returns the tool
messages, the mutated state, the store, and the invocation log — one entry
`(name, args)` per actual `tool.arun(tool_input=args)` call site. -/
def dispatch_calls (env : ToolEnv) :
    List ToolCall → AgentState → World →
      List Msg × AgentState × World × List (String × List (String × String))
  | [], st, w => ([], st, w, [])
  | tc :: rest, st, w =>
    let tool_args :=
      if tools_needing_user_id.contains tc.name then
        Conflicts.dict_set (args_of tc.args) "user_id" st.user_id
      else args_of tc.args
    if tool_names.contains tc.name then
      match env tc.name tool_args w with
      | (.ok result, w') =>
        let st' := track_tool_execution st tc.name result tool_args
        let step := dispatch_calls env rest st' w'
        (Msg.tool result tc.id tc.name :: step.1, step.2.1, step.2.2.1,
          (tc.name, tool_args) :: step.2.2.2)
      | (.exn e, w') =>
        let step := dispatch_calls env rest st w'
        (Msg.tool ("Error executing " ++ tc.name ++ ": " ++ e) tc.id tc.name :: step.1,
          step.2.1, step.2.2.1, (tc.name, tool_args) :: step.2.2.2)
    else
      let step := dispatch_calls env rest st w
      (Msg.tool ("Tool " ++ tc.name ++ " not found") tc.id tc.name :: step.1,
        step.2.1, step.2.2.1, step.2.2.2)

/-- The `tool_calls` attribute of a message (`[]` for messages without it). -/
def tool_calls_of : Msg → List ToolCall
  | .ai _ tool_calls => tool_calls
  | _ => []

/-- `custom_tool_node`: dispatch the tool calls of the last message; an empty
message list or a last message without tool calls yields no work. -/
def custom_tool_node (env : ToolEnv) (st : AgentState) (w : World) :
    List Msg × AgentState × World × List (String × List (String × String)) :=
  match st.messages.getLast? with
  | none => ([], st, w, [])
  | some last_message =>
    if (tool_calls_of last_message).isEmpty then ([], st, w, [])
    else dispatch_calls env (tool_calls_of last_message) st w

/-- Test for an `AIMessage`. -/
def is_ai : Msg → Bool
  | .ai _ _ => true
  | _ => false

/-- Number of `AIMessage`s in the working state, the loop-cap counter of
`_should_continue`. -/
def ai_count (msgs : List Msg) : Nat :=
  (msgs.filter is_ai).length

/-- `OrchestratorAgent._should_continue`: `false` (`END`) on an empty state or
once more than 5 assistant messages accumulated; otherwise continue to the
tools node exactly when the last message carries tool calls. -/
def should_continue (st : AgentState) : Bool :=
  match st.messages.getLast? with
  | none => false
  | some last_message =>
    if ai_count st.messages > 5 then false
    else !(tool_calls_of last_message).isEmpty

/-- Model of the LLM provider inside `_call_model`: from the working state to
the assistant message content and tool calls (an in-model exception is the
particular function returning the error text with no tool calls). -/
def LLM : Type :=
  AgentState → String × List ToolCall

/-- Store the assistant message returned by `_call_model` into the working
state (the `add_messages` reducer appends). -/
def append_ai (st : AgentState) (out : String × List ToolCall) : AgentState :=
  { st with messages := st.messages ++ [.ai out.1 out.2] }

/-- One pass through the tools node: run `custom_tool_node` and append its
tool messages through the `add_messages` reducer; returns the new state and
store. -/
def after_tools (env : ToolEnv) (st : AgentState) (w : World) : AgentState × World :=
  let node := custom_tool_node env st w
  ({ node.2.1 with messages := node.2.1.messages ++ node.1 }, node.2.2.1)

/-- The compiled LangGraph loop `call_model → (_should_continue) → tools →
call_model → ...`, fuel-bounded (`none` models the langgraph recursion limit,
never reached below): append the assistant message, stop unless
`_should_continue` says `"tools"`, otherwise dispatch and re-enter.  Returns
the final state, the store, and the number of tool-dispatch rounds. -/
def run_loop (llm : LLM) (env : ToolEnv) :
    Nat → AgentState → World → Option (AgentState × World × Nat)
  | 0, _, _ => none
  | fuel + 1, st, w =>
    let st1 := append_ai st (llm st)
    if should_continue st1 then
      (run_loop llm env fuel (after_tools env st1 w).1 (after_tools env st1 w).2).map
        fun p => (p.1, p.2.1, p.2.2 + 1)
    else some (st1, w, 0)

/-- Tool-dispatch rounds of a terminated run (0 for fuel exhaustion). -/
def rounds_of : Option (AgentState × World × Nat) → Nat
  | some (_, _, rounds) => rounds
  | none => 0

/-- Assistant messages accumulated by a terminated run. -/
def ai_msgs_of : Option (AgentState × World × Nat) → Nat
  | some (stf, _, _) => ai_count stf.messages
  | none => 0

/-- The `tools_used` record of a terminated run. -/
def tools_used_of : Option (AgentState × World × Nat) → List String
  | some (stf, _, _) => stf.tools_used
  | none => []

/-- The `bricks_created` record of a terminated run. -/
def bricks_created_of : Option (AgentState × World × Nat) → List String
  | some (stf, _, _) => stf.bricks_created
  | none => []

/-- The brick store after a terminated run. -/
def world_of : Option (AgentState × World × Nat) → World
  | some (_, wf, _) => wf
  | none => {}

end Orch

namespace Orch

/-- The tracker never touches identity or messages. -/
theorem track_tool_execution_user_id (st : AgentState) (n r : String)
    (a : List (String × String)) : (track_tool_execution st n r a).user_id = st.user_id :=
  rfl

/-- The tracker leaves the message list alone (it only mutates metadata). -/
theorem track_tool_execution_messages (st : AgentState) (n r : String)
    (a : List (String × String)) : (track_tool_execution st n r a).messages = st.messages :=
  rfl

/-- The dispatch loop neither changes identity nor messages, and every message
it emits is a `ToolMessage`. -/
theorem dispatch_calls_state_props (env : ToolEnv) :
    ∀ (tcs : List ToolCall) (st : AgentState) (w : World),
      (dispatch_calls env tcs st w).2.1.user_id = st.user_id ∧
        (dispatch_calls env tcs st w).2.1.messages = st.messages ∧
        ∀ m ∈ (dispatch_calls env tcs st w).1, is_ai m = false := by
  intro tcs
  induction tcs with
  | nil =>
    intro st w
    refine ⟨rfl, rfl, ?_⟩
    intro m hm
    simp [dispatch_calls] at hm
  | cons tc rest ih =>
    intro st w
    simp only [dispatch_calls]
    split
    · split
      · refine ⟨(ih _ _).1, (ih _ _).2.1, ?_⟩
        intro m hm
        rcases List.mem_cons.mp hm with heq | htail
        · subst heq; rfl
        · exact (ih _ _).2.2 m htail
      · refine ⟨(ih _ _).1, (ih _ _).2.1, ?_⟩
        intro m hm
        rcases List.mem_cons.mp hm with heq | htail
        · subst heq; rfl
        · exact (ih _ _).2.2 m htail
    · refine ⟨(ih _ _).1, (ih _ _).2.1, ?_⟩
      intro m hm
      rcases List.mem_cons.mp hm with heq | htail
      · subst heq; rfl
      · exact (ih _ _).2.2 m htail

/-- The tools node neither changes identity nor messages, and emits only
`ToolMessage`s. -/
theorem custom_tool_node_state_props (env : ToolEnv) (st : AgentState) (w : World) :
    (custom_tool_node env st w).2.1.user_id = st.user_id ∧
      (custom_tool_node env st w).2.1.messages = st.messages ∧
      ∀ m ∈ (custom_tool_node env st w).1, is_ai m = false := by
  unfold custom_tool_node
  split
  · exact ⟨rfl, rfl, by intro m hm; simp at hm⟩
  · split
    · exact ⟨rfl, rfl, by intro m hm; simp at hm⟩
    · exact dispatch_calls_state_props env _ st w

/-- `ai_count` distributes over append. -/
theorem ai_count_append (l1 l2 : List Msg) :
    ai_count (l1 ++ l2) = ai_count l1 + ai_count l2 := by
  simp [ai_count, List.filter_append]

/-- A list of non-assistant messages contributes nothing to `ai_count`. -/
theorem ai_count_eq_zero (msgs : List Msg) (h : ∀ m ∈ msgs, is_ai m = false) :
    ai_count msgs = 0 := by
  simp only [ai_count, List.length_eq_zero]
  exact List.filter_eq_nil_iff.mpr (by intro m hm; simp [h m hm])

/-- Storing the assistant message raises the assistant count by one. -/
theorem ai_count_append_ai (st : AgentState) (out : String × List ToolCall) :
    ai_count (append_ai st out).messages = ai_count st.messages + 1 := by
  unfold append_ai
  rw [ai_count_append]
  rfl

/-- A pass through the tools node leaves the assistant count unchanged. -/
theorem ai_count_after_tools (env : ToolEnv) (st : AgentState) (w : World) :
    ai_count (after_tools env st w).1.messages = ai_count st.messages := by
  unfold after_tools
  rw [ai_count_append, (custom_tool_node_state_props env st w).2.1,
    ai_count_eq_zero _ (custom_tool_node_state_props env st w).2.2, Nat.add_zero]

/-- The loop only re-enters the tools node while at most five assistant
messages are stored. -/
theorem ai_count_le_of_continue {st : AgentState} (h : should_continue st = true) :
    ai_count st.messages ≤ 5 := by
  by_contra hgt
  have hc : ai_count st.messages > 5 := by omega
  unfold should_continue at h
  rcases hl : st.messages.getLast? with _ | m <;> rw [hl] at h <;> simp [hc] at h

/-- Loop-cap invariant of `run_loop`: a terminated run performs 0 rounds or
keeps `rounds + initial assistant count` at most 5, and ends with exactly
`initial count + rounds + 1` assistant messages. -/
theorem run_loop_invariant (llm : LLM) (env : ToolEnv) :
    ∀ (fuel : Nat) (st : AgentState) (w : World) (stf : AgentState) (wf : World) (r : Nat),
      run_loop llm env fuel st w = some (stf, wf, r) →
      (r = 0 ∨ r + ai_count st.messages ≤ 5) ∧
        ai_count stf.messages = ai_count st.messages + r + 1 := by
  intro fuel
  induction fuel with
  | zero =>
    intro st w stf wf r h
    simp [run_loop] at h
  | succ fuel ih =>
    intro st w stf wf r h
    rw [run_loop] at h
    split at h
    case isTrue hc =>
      rcases Option.map_eq_some'.mp h with ⟨⟨stf', wf', r'⟩, hrec, heq⟩
      simp only [Prod.mk.injEq] at heq
      obtain ⟨rfl, rfl, hr⟩ := heq
      subst hr
      obtain ⟨hround, hcount⟩ := ih _ _ _ _ _ hrec
      have h1 : ai_count (append_ai st (llm st)).messages = ai_count st.messages + 1 :=
        ai_count_append_ai st (llm st)
      have h2 : ai_count (after_tools env (append_ai st (llm st)) w).1.messages =
          ai_count st.messages + 1 := by
        rw [ai_count_after_tools, h1]
      have h5 : ai_count (append_ai st (llm st)).messages ≤ 5 := ai_count_le_of_continue hc
      rw [h2] at hcount
      rw [h1] at h5
      constructor
      · right
        rcases hround with h0 | hle
        · omega
        · rw [h2] at hle
          omega
      · omega
    case isFalse hc =>
      simp only [Option.some.injEq, Prod.mk.injEq] at h
      obtain ⟨rfl, rfl, rfl⟩ := h
      exact ⟨Or.inl rfl, by rw [ai_count_append_ai]⟩

end Orch

namespace Orch

/-- Identity injection: every entry of the invocation log whose tool is
identity-bound carries `user_id` equal to the state's caller id, whatever the
LLM put in the arguments and whatever the tool handlers do. -/
theorem dispatch_calls_injects_user_id (env : ToolEnv) :
    ∀ (tcs : List ToolCall) (st : AgentState) (w : World)
      (entry : String × List (String × String)),
      entry ∈ (dispatch_calls env tcs st w).2.2.2 →
      tools_needing_user_id.contains entry.1 = true →
      entry.2.lookup "user_id" = some st.user_id := by
  intro tcs
  induction tcs with
  | nil =>
    intro st w entry hm _
    simp [dispatch_calls] at hm
  | cons tc rest ih =>
    intro st w entry hm hcont
    simp only [dispatch_calls] at hm
    by_cases hfound : tool_names.contains tc.name = true
    · rw [if_pos hfound] at hm
      by_cases hneed : tools_needing_user_id.contains tc.name = true
      · rw [if_pos hneed] at hm
        rcases henv : env tc.name (Conflicts.dict_set (args_of tc.args) "user_id" st.user_id) w
          with ⟨o, w'⟩
        rw [henv] at hm
        cases o with
        | ok result =>
          dsimp only at hm
          rcases List.mem_cons.mp hm with heq | htail
          · subst heq
            exact Conflicts.dict_set_lookup_self _ _ _
          · have := ih _ _ _ htail hcont
            exact this
        | exn e =>
          dsimp only at hm
          rcases List.mem_cons.mp hm with heq | htail
          · subst heq
            exact Conflicts.dict_set_lookup_self _ _ _
          · exact ih _ _ _ htail hcont
      · rw [if_neg hneed] at hm
        rcases henv : env tc.name (args_of tc.args) w with ⟨o, w'⟩
        rw [henv] at hm
        cases o with
        | ok result =>
          dsimp only at hm
          rcases List.mem_cons.mp hm with heq | htail
          · subst heq
            exact absurd hcont hneed
          · have := ih _ _ _ htail hcont
            exact this
        | exn e =>
          dsimp only at hm
          rcases List.mem_cons.mp hm with heq | htail
          · subst heq
            exact absurd hcont hneed
          · exact ih _ _ _ htail hcont
    · rw [if_neg hfound] at hm
      dsimp only at hm
      exact ih _ _ _ hm hcont

/-- The S5 tool call: `create_brick` with a forged `user_id`. -/
def s5_call : ToolCall :=
  { name := "create_brick", args := .parsed [("title", "X"), ("user_id", "ATTACKER")]
    id := "call-1" }

/-- S5 LLM: emit the forged `create_brick` call on the first cycle, then a
plain reply. -/
def s5_llm : LLM := fun st =>
  if ai_count st.messages = 0 then ("", [s5_call]) else ("Created!", [])

/-- S5 initial working state for caller `real-user`. -/
def s5_init : AgentState :=
  { messages := [.human "create a brick"], user_id := "real-user"
    conversation_id := "conv-1" }

/-- Claim C1: for every dispatched call of an identity-bound tool, the handler
is invoked with `user_id` equal to the turn's caller — whatever the LLM wrote
— and in the S5 scenario the forged `create_brick` produces a brick owned by
`real-user` (not `ATTACKER`) whose id lands in `bricks_created`. -/
theorem c1_identity_injection :
    (∀ (env : ToolEnv) (tcs : List ToolCall) (st : AgentState) (w : World)
        (entry : String × List (String × String)),
        entry ∈ (dispatch_calls env tcs st w).2.2.2 →
        tools_needing_user_id.contains entry.1 = true →
        entry.2.lookup "user_id" = some st.user_id) ∧
      world_of (run_loop s5_llm world_env 25 s5_init {}) =
        { bricks := [{ id := "brick-0", user_id := "real-user", title := "X" }], next_id := 1 } ∧
      bricks_created_of (run_loop s5_llm world_env 25 s5_init {}) = ["brick-0"] := by
  refine ⟨dispatch_calls_injects_user_id, by decide, by decide⟩

/-- Witness for Claim C1: in the S5 dispatch the logged `create_brick`
invocation carries `user_id = real-user`. -/
theorem c1_identity_injection_witness :
    ("create_brick", ([("title", "X"), ("user_id", "real-user")] : List (String × String))) ∈
        (dispatch_calls world_env [s5_call] s5_init {}).2.2.2 ∧
      ([("title", "X"), ("user_id", "real-user")] : List (String × String)).lookup "user_id" =
        some s5_init.user_id :=
  ⟨by decide,
    c1_identity_injection.1 world_env [s5_call] s5_init {}
      ("create_brick", [("title", "X"), ("user_id", "real-user")]) (by decide) (by decide)⟩

/-- S4 LLM: always request one `get_bricks` call. -/
def llm_always_get_bricks : LLM := fun _ =>
  ("", [{ name := "get_bricks", args := .parsed [], id := "call-1" }])

/-- Environment in which every handler succeeds with a stub reply. -/
def ok_env : ToolEnv := fun name _ w => (.ok ("ok " ++ name), w)

/-- S4 initial working state (fresh conversation: no assistant messages). -/
def c3_init : AgentState :=
  { messages := [.human "list my bricks"], user_id := "user-1"
    conversation_id := "conv-1" }

/-- Claim C3, counterexample: with a model that always requests a tool, the
turn stores six assistant messages — the sixth model call happens, so the turn
is not capped at five assistant cycles (and no bounded notice exists anywhere
in the code path: the final text is whatever the model last produced). -/
theorem c3_sixth_assistant_cycle :
    ai_msgs_of (run_loop llm_always_get_bricks ok_env 25 c3_init {}) = 6 ∧
      ¬ ai_msgs_of (run_loop llm_always_get_bricks ok_env 25 c3_init {}) ≤ 5 := by
  refine ⟨by decide, by decide⟩

/-- Claim C3 (amended): every terminated run performs at most 5 tool-dispatch
rounds; starting from a state with no assistant messages it stores at most 6
assistant messages (the cap ends the turn at the sixth model call, without any
bounded notice); and the always-tool-calling model yields exactly 5 recorded
tool invocations over 6 assistant cycles. -/
theorem c3_loop_cap_amended :
    (∀ (llm : LLM) (env : ToolEnv) (fuel : Nat) (st : AgentState) (w : World),
        rounds_of (run_loop llm env fuel st w) ≤ 5) ∧
      (∀ (llm : LLM) (env : ToolEnv) (fuel : Nat) (st : AgentState) (w : World),
        ai_count st.messages = 0 → ai_msgs_of (run_loop llm env fuel st w) ≤ 6) ∧
      rounds_of (run_loop llm_always_get_bricks ok_env 25 c3_init {}) = 5 ∧
      tools_used_of (run_loop llm_always_get_bricks ok_env 25 c3_init {}) =
        ["get_bricks", "get_bricks", "get_bricks", "get_bricks", "get_bricks"] := by
  refine ⟨?_, ?_, by decide, by decide⟩
  · intro llm env fuel st w
    rcases hr : run_loop llm env fuel st w with _ | ⟨stf, wf, r⟩
    · simp [rounds_of]
    · obtain ⟨h1, _⟩ := run_loop_invariant llm env fuel st w stf wf r hr
      simp only [rounds_of]
      rcases h1 with rfl | hle
      · omega
      · omega
  · intro llm env fuel st w h0
    rcases hr : run_loop llm env fuel st w with _ | ⟨stf, wf, r⟩
    · simp [ai_msgs_of]
    · obtain ⟨h1, h2⟩ := run_loop_invariant llm env fuel st w stf wf r hr
      simp only [ai_msgs_of]
      rcases h1 with rfl | hle <;> omega

/-- Witness for the amended Claim C3, at the S4 run. -/
theorem c3_loop_cap_amended_witness :
    ai_count c3_init.messages = 0 ∧
      ai_msgs_of (run_loop llm_always_get_bricks ok_env 7 c3_init {}) ≤ 6 :=
  ⟨by decide, c3_loop_cap_amended.2.1 llm_always_get_bricks ok_env 7 c3_init {} (by decide)⟩

end Orch

namespace Orch

/-- The fixed assistant text of the `asyncio.TimeoutError` branch of
`process_user_message`. -/
def timeout_message_text : String :=
  "I\x27m taking longer than expected to process your request. Please try again with a simpler question."

/-- The `AgentResponse` model, restricted to the fields `process_user_message`
fills from the final state (`model_used` and the remaining fields are config
plumbing or constants). -/
structure AgentResponse where
  response_text : String
  actions_taken : List String
  suggestions : List String
  schedule_updated : Bool
  bricks_created : List String
  bricks_updated : List String
  resources_recommended : List String
deriving DecidableEq

/-- Occurrences of a character in a string. -/
def count_char (s : String) (c : Char) : Nat :=
  (s.data.filter (· == c)).length

/-- `OrchestratorAgent._safe_parse_uuid`: strip, then accept length-36 strings
with four dashes.  (The subsequent `uuid.UUID` hex validation is not modelled;
the claims only evaluate this on empty lists and well-formed UUIDs.) -/
def safe_parse_uuid (s : String) : Option String :=
  let cleaned := py_strip s
  if cleaned.length = 36 ∧ count_char cleaned '-' = 4 then some cleaned else none

/-- Content of a LangChain message. -/
def content_of : Msg → String
  | .human content => content
  | .ai content _ => content
  | .tool content _ _ => content

/-- Construction of the `AgentResponse` from a final state at the end of
`process_user_message`: last message text, `tools_used` as `actions_taken`,
the `last_suggestions` slot of `user_context`, and the UUID-filtered causal
id lists. -/
def mk_agent_response (final_state : AgentState) : AgentResponse :=
  { response_text := content_of ((final_state.messages.getLast?).getD (.human ""))
    actions_taken := final_state.tools_used
    suggestions := final_state.last_suggestions
    schedule_updated := final_state.schedule_updated
    bricks_created := final_state.bricks_created.filterMap safe_parse_uuid
    bricks_updated := final_state.bricks_updated.filterMap safe_parse_uuid
    resources_recommended := final_state.resources_recommended.filterMap safe_parse_uuid }

/-- The `initial_state` literal of `process_user_message`: loaded history plus
the new user message, empty metadata. -/
def mk_initial_state (history : List Msg) (message user_id conversation_id : String) :
    AgentState :=
  { messages := history ++ [.human message]
    user_id := user_id
    conversation_id := conversation_id }

/-- The `except asyncio.TimeoutError` branch of `process_user_message`.  The
code builds `final_state = {**initial_state, "messages": initial + [timeout]}`.
The metadata entries of `initial_state` (`tools_used`, `schedule_updated`,
`bricks_created`, `bricks_updated`, `resources_recommended`, `user_context`)
alias the very objects the workflow mutates: the nodes only ever *return*
`messages`, LangGraph channels keep the input references for the other keys,
and `_track_tool_execution` appends to those lists in place — which is also
the only way the success path's `final_state.get("tools_used")` is ever
non-empty.  So at cancellation they hold the partial work of the in-flight
state.  The `messages` key, by contrast, flows through the `add_messages`
reducer, which builds fresh lists, so the initial message list is unchanged
and only the fixed timeout message is appended to it. -/
def process_user_message_on_timeout (message : String) (history : List Msg)
    (user_id conversation_id : String) (in_flight : AgentState) : AgentResponse :=
  let initial_state :=
    { mk_initial_state history message user_id conversation_id with
      tools_used := in_flight.tools_used
      schedule_updated := in_flight.schedule_updated
      bricks_created := in_flight.bricks_created
      bricks_updated := in_flight.bricks_updated
      resources_recommended := in_flight.resources_recommended
      last_suggestions := in_flight.last_suggestions }
  let final_state :=
    { initial_state with messages := initial_state.messages ++ [.ai timeout_message_text []] }
  mk_agent_response final_state

/-- Claim C4: on the 45-second deadline the turn still returns an
`AgentResponse` whose text is the fixed timeout message, and the partial work
accumulated before the cancellation is preserved in it: `actions_taken` is the
in-flight `tools_used`, `schedule_updated` is the in-flight flag, and the
causal id lists are the in-flight ones (passed, as on every path, through the
`_safe_parse_uuid` filter of the response constructor). -/
theorem c4_timeout_preserves_partial_work :
    ∀ (message : String) (history : List Msg) (user_id conversation_id : String)
      (in_flight : AgentState),
      (process_user_message_on_timeout message history user_id conversation_id
          in_flight).response_text = timeout_message_text ∧
        (process_user_message_on_timeout message history user_id conversation_id
            in_flight).actions_taken = in_flight.tools_used ∧
        (process_user_message_on_timeout message history user_id conversation_id
            in_flight).schedule_updated = in_flight.schedule_updated ∧
        (process_user_message_on_timeout message history user_id conversation_id
            in_flight).bricks_created = in_flight.bricks_created.filterMap safe_parse_uuid ∧
        (process_user_message_on_timeout message history user_id conversation_id
            in_flight).bricks_updated = in_flight.bricks_updated.filterMap safe_parse_uuid := by
  intro message history user_id conversation_id in_flight
  refine ⟨?_, rfl, rfl, rfl, rfl⟩
  unfold process_user_message_on_timeout mk_agent_response mk_initial_state
  simp [content_of, List.getLast?_concat]

end Orch
